import Mathlib

/-!
Shallow embedding of `plugins/callback/json_notifier.py` (an Ansible callback
plugin that maps lifecycle events to JSON envelopes and POSTs them to a
webhook), together with proofs of the specification's claims about it.

Python dicts are modelled as insertion-ordered association lists with the
usual CPython semantics for `copy`, `update` and item assignment.  Effects
(display warnings, debug lines, outbound HTTP attempts) are modelled as an
explicit effect log; the HTTP transport (`open_url`, an external collaborator)
is an oracle parameter deciding whether a given request succeeds or raises.
-/

namespace JsonNotifier

/-- JSON-compatible values as handled by `json.dumps(..., cls=AnsibleJSONEncoder)`.
`raw` stands for an engine-native object the encoder cannot render: on such a
value `json.dumps` raises. -/
inductive Json where
  | null
  | bool (b : Bool)
  | num (n : Int)
  | str (s : String)
  | arr (elems : List Json)
  | obj (fields : List (String × Json))
  | raw (desc : String)

/-- A Python dict with string keys, as an insertion-ordered association list. -/
abbrev PyDict := List (String × Json)

/-- CPython `d[k] = v`: replace the value in place if the key is present
(keeping its position), otherwise append the new entry at the end. -/
def dictSet (d : PyDict) (k : String) (v : Json) : PyDict :=
  if d.any (fun p => p.1 = k) then
    d.map (fun p => if p.1 = k then (k, v) else p)
  else
    d ++ [(k, v)]

/-- CPython `d.update(us)`: `d[k] = v` for each entry of `us` in order. -/
def dictUpdate (d : PyDict) (us : PyDict) : PyDict :=
  us.foldl (fun acc p => dictSet acc p.1 p.2) d

/-- Dict lookup (first entry with the key; dict keys are unique in CPython). -/
def dictGet (d : PyDict) (k : String) : Option Json :=
  (d.find? (fun p => p.1 = k)).map Prod.snd

/-- Lookup of a key inside a `Json.obj` envelope. -/
def Json.field (j : Json) (k : String) : Option Json :=
  match j with
  | .obj fs => dictGet fs k
  | _ => none

/-- The keys of a dict, in order. -/
def dictKeys (d : PyDict) : List String := d.map Prod.fst

/-- A UTC wall-clock instant as returned by `datetime.datetime.utcnow()`:
a naive datetime with microsecond precision.  Valid instants have
`1 ≤ year ≤ 9999`, `1 ≤ month ≤ 12`, `1 ≤ day ≤ 31`, `hour ≤ 23`,
`minute ≤ 59`, `second ≤ 59`, `microsecond ≤ 999999`. -/
structure DateTime where
  year : Nat
  month : Nat
  day : Nat
  hour : Nat
  minute : Nat
  second : Nat
  microsecond : Nat
deriving Repr, DecidableEq

/-- The decimal digit character for `m % 10`. -/
def digitChar (m : Nat) : Char := Char.ofNat (48 + m % 10)

/-- Zero-padded two-digit decimal rendering (CPython `"%02d"` for `n < 100`). -/
def pad2 (n : Nat) : List Char := [digitChar (n / 10), digitChar n]

/-- Zero-padded four-digit decimal rendering (CPython `"%04d"` for `n < 10000`). -/
def pad4 (n : Nat) : List Char :=
  [digitChar (n / 1000), digitChar (n / 100), digitChar (n / 10), digitChar n]

/-- Zero-padded six-digit decimal rendering (CPython `"%06d"` for `n < 1000000`). -/
def pad6 (n : Nat) : List Char :=
  [digitChar (n / 100000), digitChar (n / 10000), digitChar (n / 1000),
   digitChar (n / 100), digitChar (n / 10), digitChar n]

/-- The character list of CPython `datetime.isoformat()`:
`YYYY-MM-DDTHH:MM:SS` with `.ffffff` appended only when the microsecond
field is nonzero. -/
def isoformatChars (d : DateTime) : List Char :=
  pad4 d.year ++ '-' :: pad2 d.month ++ '-' :: pad2 d.day ++
    'T' :: pad2 d.hour ++ ':' :: pad2 d.minute ++ ':' :: pad2 d.second ++
    (if d.microsecond = 0 then [] else '.' :: pad6 d.microsecond)

/-- CPython `datetime.isoformat()` as a string. -/
def DateTime.isoformat (d : DateTime) : String := ⟨isoformatChars d⟩

/-- Source `current_time()`: `"%sZ" % datetime.datetime.utcnow().isoformat()`,
with the clock reading passed explicitly. -/
def current_time (now : DateTime) : String := now.isoformat ++ "Z"

/-- Mixed-radix encoding of an instant; on valid datetimes it is strictly
monotone in the lexicographic (chronological) field order, since every field
stays below its radix (`month ≤ 12 < 13`, `day ≤ 31 < 32`, ...). -/
def DateTime.toMicros (d : DateTime) : Nat :=
  d.microsecond + 1000000 *
    (d.second + 60 * (d.minute + 60 * (d.hour + 24 * (d.day + 32 * (d.month + 13 * d.year)))))

/-- Chronological order on clock instants. -/
def dtLe (a b : DateTime) : Prop := a.toMicros ≤ b.toMicros

instance (a b : DateTime) : Decidable (dtLe a b) :=
  inferInstanceAs (Decidable (a.toMicros ≤ b.toMicros))

mutual

/-- Whether `json.dumps(_, cls=AnsibleJSONEncoder)` can render the value:
it fails exactly when some `raw` engine-native object occurs inside. -/
def serializable : Json → Bool
  | .null => true
  | .bool _ => true
  | .num _ => true
  | .str _ => true
  | .raw _ => false
  | .arr es => serializableList es
  | .obj fs => serializableFields fs

/-- `serializable` over the elements of an array. -/
def serializableList : List Json → Bool
  | [] => true
  | e :: es => serializable e && serializableList es

/-- `serializable` over the values of an object. -/
def serializableFields : List (String × Json) → Bool
  | [] => true
  | (_, v) :: fs => serializable v && serializableFields fs

end

/-- JSON string literal with the escapes the examples need. -/
def renderString (s : String) : String :=
  "\"" ++ String.join (s.data.map (fun c =>
    if c = '"' then "\\\"" else if c = '\\' then "\\\\" else String.singleton c)) ++ "\""

mutual

/-- Plain JSON text rendering (CPython `json.dumps` default separators). -/
def render : Json → String
  | .null => "null"
  | .bool true => "true"
  | .bool false => "false"
  | .num n => toString n
  | .str s => renderString s
  | .raw d => d
  | .arr es => "[" ++ String.intercalate ", " (renderList es) ++ "]"
  | .obj fs => "\x7b" ++ String.intercalate ", " (renderFields fs) ++ "\x7d"

/-- Renderings of the elements of an array. -/
def renderList : List Json → List String
  | [] => []
  | e :: es => render e :: renderList es

/-- Renderings of the key/value entries of an object. -/
def renderFields : List (String × Json) → List String
  | [] => []
  | (k, v) :: fs => (renderString k ++ ": " ++ render v) :: renderFields fs

end

/-- `json.dumps(msg, cls=AnsibleJSONEncoder)`: the serialized text, or `none`
when the encoder raises on an unrenderable value. -/
def dumps (j : Json) : Option String :=
  if serializable j then some (render j) else none

/-- Engine-native play object: uuid and display name. -/
structure Play where
  _uuid : String
  name : String
deriving Repr, DecidableEq

/-- Engine-native host object (`get_name`). -/
structure Host where
  name : String
deriving Repr, DecidableEq

/-- Engine-native task object: uuid, `get_path`, `get_name`, `action`,
`notified_hosts`. -/
structure Task where
  _uuid : String
  path : String
  name : String
  action : String
  notified_hosts : List Host
deriving Repr, DecidableEq

/-- Engine-native task result: back-references to host and task, plus the
engine's own result payload dict. -/
structure TaskResult where
  _host : Host
  _task : Task
  _result : PyDict

/-- Engine-native aggregate stats: the keys of the `processed` dict, and the
engine's `summarize` producing a host's outcome counters (external code). -/
structure AggregateStats where
  processed : List String
  summarize : String → PyDict

/-- The notifier's run-scoped state: the fields set in `__init__` plus the
`disabled` flag inherited from `CallbackBase` (initially `False`). -/
structure CallbackState where
  _last_play : Option String
  _callback_url : Option String
  disabled : Bool
deriving Repr, DecidableEq

/-- State after `__init__`: `_last_play = None`, `_callback_url = None`,
`disabled` left at `CallbackBase`'s default `False`. -/
def initState : CallbackState := ⟨none, none, false⟩

/-- Observable side effects of the notifier. -/
inductive Effect where
  | warning (msg : String)
  | debugLine (msg : String)
  | httpPost (url : String) (body : String)
deriving Repr, DecidableEq

/-- The setup-time warning text emitted when no webhook URL is configured. -/
def missingUrlWarning : String :=
  "JSON Webhook URL was not provided. The JSON Webhook URL can be provided using the `JSON_WEBHOOK_URL` environment variable."

/-- Source `set_options`: store the resolved `json_webhook_url` option; when it
is `None`, set `disabled` and warn once. -/
def set_options (st : CallbackState) (url : Option String) : CallbackState × List Effect :=
  let st1 := { st with _callback_url := url }
  match url with
  | none => ({ st1 with disabled := true }, [Effect.warning missingUrlWarning])
  | some _ => (st1, [])

/-- Outcome of one `open_url` invocation on a concrete URL: a readable
response body, or a raised exception carrying its text. -/
inductive TransportOutcome where
  | success (body : String)
  | raised (err : String)
deriving Repr, DecidableEq

/-- The HTTP transport as an oracle: what `open_url` does for a given URL and
request body. -/
abbrev Transport := String → String → TransportOutcome

/-- The exception text when `open_url` is handed a `None` URL: it raises
before any outbound request is made. -/
def noneUrlError : String := "Invalid URL None"

/-- One `open_url(self._callback_url, data=..., headers=...)` call: the HTTP
attempt it performs (none when the URL is `None`) and its outcome. -/
def open_url_call (tr : Transport) (url : Option String) (data : String) :
    List Effect × TransportOutcome :=
  match url with
  | none => ([], .raised noneUrlError)
  | some u => ([Effect.httpPost u data], tr u data)

/-- Display of the URL option in a debug line. -/
def urlText : Option String → String
  | none => "None"
  | some u => u

/-- Source `send_msg`: serialize the envelope (a serialization error
propagates, before any effect), debug-log the body and URL, then try exactly
one `open_url` POST; a transport exception is caught and converted into one
warning, returning `None`.  Result: the effect log, and either the propagated
serialization error or the normal return value (`response.read()` on success,
`None` on a caught transport error). -/
def send_msg (st : CallbackState) (tr : Transport) (msg : Json) :
    List Effect × Except String (Option String) :=
  match dumps msg with
  | none => ([], .error "TypeError: not JSON serializable")
  | some data =>
    let dbg := [Effect.debugLine data, Effect.debugLine (urlText st._callback_url)]
    match open_url_call tr st._callback_url data with
    | (attempts, .success body) => (dbg ++ attempts, .ok (some body))
    | (attempts, .raised e) =>
        (dbg ++ attempts ++
          [Effect.warning ("Could not submit message to webhook: " ++ e)], .ok none)

/-- `None`-aware JSON embedding of `self._last_play`. -/
def optJson : Option String → Json
  | none => .null
  | some s => .str s

/-- Source `v2_playbook_on_play_start`: cache the play's uuid as the current
play, then build the `play_start` envelope.  Returns the updated state and the
envelope handed to `send_msg`. -/
def v2_playbook_on_play_start (st : CallbackState) (now : DateTime) (play : Play) :
    CallbackState × Json :=
  let st1 := { st with _last_play := some play._uuid }
  (st1, .obj [
    ("type", .str "play_start"),
    ("id", .str play._uuid),
    ("start", .str (current_time now)),
    ("name", .str play.name)])

/-- Source `v2_runner_on_start`: build the `task_host_start` envelope; the
state is not touched. -/
def v2_runner_on_start (st : CallbackState) (now : DateTime) (host : Host) (task : Task) :
    Json :=
  .obj [
    ("type", .str "task_host_start"),
    ("play", optJson st._last_play),
    ("id", .str task._uuid),
    ("path", .str task.path),
    ("name", .str task.name),
    ("start", .str (current_time now)),
    ("host", .str host.name)]

/-- Source `v2_playbook_on_task_start`: build the `task_start` envelope
(`is_conditional` is received but unused by the source). -/
def v2_playbook_on_task_start (st : CallbackState) (now : DateTime) (task : Task)
    (_is_conditional : Bool) : Json :=
  .obj [
    ("type", .str "task_start"),
    ("play", optJson st._last_play),
    ("id", .str task._uuid),
    ("path", .str task.path),
    ("name", .str task.name),
    ("start", .str (current_time now))]

/-- Source `v2_playbook_on_handler_task_start`: build the
`task__handler_start` envelope. -/
def v2_playbook_on_handler_task_start (st : CallbackState) (now : DateTime) (task : Task) :
    Json :=
  .obj [
    ("type", .str "task__handler_start"),
    ("play", optJson st._last_play),
    ("id", .str task._uuid),
    ("path", .str task.path),
    ("name", .str task.name),
    ("start", .str (current_time now)),
    ("notified_host", .arr (task.notified_hosts.map (fun h => .str h.name)))]

/-- CPython `sorted` on a list of strings: ascending lexicographic order
(modelled as a stable insertion sort; `processed` keys are distinct, so any
ascending sort yields the same list). -/
def pySorted (l : List String) : List String := l.insertionSort (· ≤ ·)

/-- Source `v2_playbook_on_stats`: iterate `sorted(stats.processed.keys())`,
map each host to `stats.summarize(h)`, and build the `playbook_end`
envelope. -/
def v2_playbook_on_stats (now : DateTime) (stats : AggregateStats) : Json :=
  let hosts := pySorted stats.processed
  let summary : PyDict := hosts.map (fun h => (h, .obj (stats.summarize h)))
  .obj [
    ("type", .str "playbook_end"),
    ("end", .str (current_time now)),
    ("result", .obj summary)]

/-- Source `_record_task_result`: copy the engine's result payload, merge the
outcome flags (`on_info`), set `action` to the task's action module, and build
the `task_host_end` envelope.  Returns the envelope and the engine's
`result._result` dict as it stands after the call: every write targets
`result_copy` (a fresh dict made by `.copy()`), so the engine's dict passes
through unchanged. -/
def _record_task_result (st : CallbackState) (now : DateTime) (on_info : PyDict)
    (result : TaskResult) : Json × PyDict :=
  let host := result._host
  let task := result._task
  let engine0 := result._result
  let result_copy := engine0
  let result_copy := dictUpdate result_copy on_info
  let result_copy := dictSet result_copy "action" (.str task.action)
  (.obj [
    ("type", .str "task_host_end"),
    ("play", optJson st._last_play),
    ("id", .str task._uuid),
    ("path", .str task.path),
    ("name", .str task.name),
    ("end", .str (current_time now)),
    ("host", .str host.name),
    ("result", .obj result_copy)], engine0)

/-- The four completion-handler attribute names intercepted by
`__getattribute__`. -/
def completionNames : List String :=
  ["v2_runner_on_ok", "v2_runner_on_failed", "v2_runner_on_unreachable", "v2_runner_on_skipped"]

/-- CPython `name.rsplit("_", 1)[1]` for a name containing an underscore:
the characters after the last underscore. -/
def rsplitUnderscoreLast (name : String) : String :=
  ⟨(name.data.reverse.takeWhile (fun c => c ≠ '_')).reverse⟩

/-- The `on_info` dict that `__getattribute__` builds for an intercepted
completion-handler name: `on = name.rsplit("_", 1)[1]`, then `{on: True}` for
`failed`/`skipped`/`ok` and `{}` otherwise (unreachable is already in the
engine's result dict). -/
def completionOnInfo (name : String) : PyDict :=
  let o := rsplitUnderscoreLast name
  if o = "failed" ∨ o = "skipped" ∨ o = "ok" then [(o, .bool true)] else []

/-- The callable that `__getattribute__` returns for an intercepted
completion-handler name: `partial(self._record_task_result, on_info)`. -/
def completionHandler (name : String) (st : CallbackState) (now : DateTime)
    (result : TaskResult) : Json × PyDict :=
  _record_task_result st now (completionOnInfo name) result

/-- Source `__getattribute__`, restricted to its interception behaviour:
for one of the four completion names it returns the
`partial(self._record_task_result, on_info)` callable; every other name falls
through to `object.__getattribute__` (modelled as `none`). -/
def getattribute (name : String) :
    Option (CallbackState → DateTime → TaskResult → Json × PyDict) :=
  if name ∈ completionNames then some (completionHandler name) else none

/-- One lifecycle notification from the orchestration engine, with the
engine-native arguments it passes to the corresponding handler. -/
inductive Event where
  | playStart (play : Play)
  | runnerStart (host : Host) (task : Task)
  | taskStart (task : Task) (is_conditional : Bool)
  | handlerTaskStart (task : Task)
  | runnerOk (result : TaskResult)
  | runnerFailed (result : TaskResult)
  | runnerUnreachable (result : TaskResult)
  | runnerSkipped (result : TaskResult)
  | playbookStats (stats : AggregateStats)

/-- The intercepted attribute name through which the engine reaches each
completion event's handler. -/
def Event.completionAttr : Event → Option String
  | .runnerOk _ => some "v2_runner_on_ok"
  | .runnerFailed _ => some "v2_runner_on_failed"
  | .runnerUnreachable _ => some "v2_runner_on_unreachable"
  | .runnerSkipped _ => some "v2_runner_on_skipped"
  | _ => none

/-- Whether the event is one of the task-related notifications (the ones whose
envelope carries a `play` field). -/
def Event.isTaskRelated : Event → Bool
  | .runnerStart _ _ => true
  | .taskStart _ _ => true
  | .handlerTaskStart _ => true
  | .runnerOk _ => true
  | .runnerFailed _ => true
  | .runnerUnreachable _ => true
  | .runnerSkipped _ => true
  | _ => false

/-- Whether the event is a play start. -/
def Event.isPlayStart : Event → Bool
  | .playStart _ => true
  | _ => false

/-- Dispatch one notification to its handler (through `__getattribute__` for
the four completion events): the state after the handler and the envelope the
handler builds and sends. -/
def buildEnvelope (st : CallbackState) (now : DateTime) (e : Event) :
    CallbackState × Json :=
  match e with
  | .playStart play => v2_playbook_on_play_start st now play
  | .runnerStart host task => (st, v2_runner_on_start st now host task)
  | .taskStart task c => (st, v2_playbook_on_task_start st now task c)
  | .handlerTaskStart task => (st, v2_playbook_on_handler_task_start st now task)
  | .runnerOk result => (st, (completionHandler "v2_runner_on_ok" st now result).1)
  | .runnerFailed result => (st, (completionHandler "v2_runner_on_failed" st now result).1)
  | .runnerUnreachable result =>
      (st, (completionHandler "v2_runner_on_unreachable" st now result).1)
  | .runnerSkipped result => (st, (completionHandler "v2_runner_on_skipped" st now result).1)
  | .playbookStats stats => (st, v2_playbook_on_stats now stats)

/-- The notifier state after a sequence of notifications (each paired with the
clock instant at which its envelope is built). -/
def runState (st : CallbackState) : List (DateTime × Event) → CallbackState
  | [] => st
  | (d, e) :: rest => runState (buildEnvelope st d e).1 rest

/-- The envelopes built for a sequence of notifications, in order. -/
def runEnvelopes (st : CallbackState) : List (DateTime × Event) → List Json
  | [] => []
  | (d, e) :: rest =>
      let (st1, env) := buildEnvelope st d e
      env :: runEnvelopes st1 rest

/-- The uuid of the most recently started play in the event sequence (or the
initially cached one when the sequence starts no play). -/
def lastPlayOf (init : Option String) : List Event → Option String
  | [] => init
  | .playStart p :: rest => lastPlayOf (some p._uuid) rest
  | _ :: rest => lastPlayOf init rest

/-- One full notification: build the envelope, then `send_msg` it.  Returns
the new state, the effect log, and `send_msg`'s outcome. -/
def handle_event (st : CallbackState) (tr : Transport) (now : DateTime) (e : Event) :
    CallbackState × List Effect × Except String (Option String) :=
  let (st1, env) := buildEnvelope st now e
  let (effs, out) := send_msg st1 tr env
  (st1, effs, out)

/-- Modelled from the spec: the orchestration engine's callback dispatch loop
(external to this repository) skips a plugin whose `disabled` flag is set, so
a disabled notifier receives no notification at all — "every delivery call
becomes a no-op ... nothing is sent, and no warning is repeated per event".
An enabled notifier handles each event in turn; an uncaught (serialization)
error aborts the run. -/
def runDispatch (st : CallbackState) (tr : Transport) :
    List (DateTime × Event) → CallbackState × List Effect
  | [] => (st, [])
  | (d, e) :: rest =>
      if st.disabled then runDispatch st tr rest
      else
        let (st1, effs, out) := handle_event st tr d e
        match out with
        | .error _ => (st1, effs)
        | .ok _ =>
            let (st2, effs2) := runDispatch st1 tr rest
            (st2, effs ++ effs2)

/-- Whether an effect is a display warning. -/
def Effect.isWarning : Effect → Bool
  | .warning _ => true
  | _ => false

/-- Whether an effect is an outbound HTTP attempt. -/
def Effect.isHttp : Effect → Bool
  | .httpPost _ _ => true
  | _ => false

/-- Consume exactly `n` decimal digit characters. -/
def eatDigits : Nat → List Char → Option (List Char)
  | 0, cs => some cs
  | _ + 1, [] => none
  | n + 1, c :: cs => if c.isDigit then eatDigits n cs else none

/-- Consume exactly the character `c`. -/
def eatChar (c : Char) : List Char → Option (List Char)
  | [] => none
  | d :: cs => if d = c then some cs else none

/-- After `YYYY-MM-DDTHH:MM:SS`, accept `Z` or `.ffffffZ`. -/
def checkTail : List Char → Bool
  | ['Z'] => true
  | '.' :: cs =>
      match eatDigits 6 cs with
      | some ['Z'] => true
      | _ => false
  | _ => false

/-- Decidable matcher for the spec's timestamp pattern
`YYYY-MM-DDTHH:MM:SS(.ffffff)?Z`. -/
def matchesTsShape (s : String) : Bool :=
  match ((((((((((eatDigits 4 s.data).bind (eatChar '-')).bind (eatDigits 2)).bind
      (eatChar '-')).bind (eatDigits 2)).bind (eatChar 'T')).bind (eatDigits 2)).bind
      (eatChar ':')).bind (eatDigits 2)).bind (eatChar ':')).bind (eatDigits 2) with
  | some rest => checkTail rest
  | none => false

/-- The envelope's unique timestamp field: `start` for the start envelopes,
`end` for the end envelopes. -/
def tsField (j : Json) : Option Json :=
  match j.field "start" with
  | some v => some v
  | none => j.field "end"

/-- The spec's outcome-flag table (§3): `{"ok": true}` for the ok
notification, `{"failed": true}` for failed, `{"skipped": true}` for skipped,
and no explicit flag for unreachable. -/
def specOutcomeFlags (name : String) : PyDict :=
  if name = "v2_runner_on_ok" then [("ok", .bool true)]
  else if name = "v2_runner_on_failed" then [("failed", .bool true)]
  else if name = "v2_runner_on_skipped" then [("skipped", .bool true)]
  else []

/-- Spec §9's explicit reimplementation of the ok handler: a thin function
delegating to the shared completion-builder with this outcome's flag
mapping. -/
def spec_v2_runner_on_ok (st : CallbackState) (now : DateTime) (result : TaskResult) :
    Json × PyDict :=
  _record_task_result st now [("ok", .bool true)] result

/-- Spec §9's explicit reimplementation of the failed handler. -/
def spec_v2_runner_on_failed (st : CallbackState) (now : DateTime) (result : TaskResult) :
    Json × PyDict :=
  _record_task_result st now [("failed", .bool true)] result

/-- Spec §9's explicit reimplementation of the skipped handler. -/
def spec_v2_runner_on_skipped (st : CallbackState) (now : DateTime) (result : TaskResult) :
    Json × PyDict :=
  _record_task_result st now [("skipped", .bool true)] result

/-- Spec §9's explicit reimplementation of the unreachable handler: no
explicit flag is merged (the engine's result payload already carries one). -/
def spec_v2_runner_on_unreachable (st : CallbackState) (now : DateTime) (result : TaskResult) :
    Json × PyDict :=
  _record_task_result st now [] result

/-- The play of the spec's `play_start` example: name "deploy",
uuid `abc-123`. -/
def examplePlay : Play := ⟨"abc-123", "deploy"⟩

/-- The clock instant named by the example timestamp: 2024-01-01 00:00:00.000000 UTC. -/
def exampleInstant : DateTime := ⟨2024, 1, 1, 0, 0, 0, 0⟩

/-- A concrete task used by the witnesses. -/
def sampleTask : Task := ⟨"task-uuid-1", "site.yml:12", "install", "apt", []⟩

/-- A concrete state with a configured webhook URL and a cached play. -/
def sampleState : CallbackState := ⟨some "play-uuid-1", some "http://hook.example/x", false⟩

/-- A concrete clock instant used by the witnesses. -/
def sampleInstant : DateTime := ⟨2024, 5, 17, 10, 30, 0, 250000⟩

/-- A later concrete clock instant used by the witnesses. -/
def sampleInstant2 : DateTime := ⟨2024, 5, 17, 10, 30, 1, 0⟩

/-- A concrete two-event sequence with non-decreasing clock instants. -/
def sampleRun : List (DateTime × Event) :=
  [(sampleInstant, .playStart ⟨"play-uuid-1", "deploy"⟩),
   (sampleInstant2, .taskStart sampleTask false)]

/-- A concrete transport whose every request raises. -/
def raisingTransport : Transport := fun _ _ => .raised "urlopen error timed out"

/-- A concrete serializable envelope used by the witnesses. -/
def sampleMsg : Json := .obj [("type", .str "play_start")]

instance : DecidableRel dtLe :=
  fun a b => inferInstanceAs (Decidable (a.toMicros ≤ b.toMicros))

/-- A concrete engine task result used by the witnesses. -/
def sampleResult : TaskResult :=
  ⟨⟨"web1"⟩, sampleTask, [("changed", .bool true), ("msg", .str "done")]⟩

/-- A concrete envelope the encoder cannot render, used by the witnesses. -/
def sampleBadMsg : Json := .obj [("result", .raw "AnsibleUndefined object")]

lemma mem_dictKeys_dictSet {k' : String} (d : PyDict) (k : String) (v : Json) :
    k' ∈ dictKeys (dictSet d k v) ↔ k' ∈ dictKeys d ∨ k' = k := by
  unfold dictSet
  split
  · rename_i h
    have hkeys : dictKeys (d.map fun p => if p.1 = k then (k, v) else p) = dictKeys d := by
      simp only [dictKeys, List.map_map]
      congr 1
      funext p
      by_cases hp : p.1 = k <;> simp [hp]
    rw [hkeys]
    simp only [List.any_eq_true, decide_eq_true_eq] at h
    obtain ⟨p, hp, hpk⟩ := h
    constructor
    · exact Or.inl
    · rintro (hk | rfl)
      · exact hk
      · exact hpk ▸ List.mem_map_of_mem Prod.fst hp
  · simp [dictKeys]

lemma mem_dictKeys_dictUpdate {k : String} (us : PyDict) (d : PyDict) :
    k ∈ dictKeys (dictUpdate d us) ↔ k ∈ dictKeys d ∨ k ∈ dictKeys us := by
  induction us generalizing d with
  | nil => simp [dictUpdate, dictKeys]
  | cons u us ih =>
    have step : dictUpdate d (u :: us) = dictUpdate (dictSet d u.1 u.2) us := rfl
    rw [step, ih, mem_dictKeys_dictSet]
    simp [dictKeys]
    tauto

lemma find_in_replaced {k : String} {v : Json} :
    ∀ d : PyDict, d.any (fun p => p.1 = k) = true →
      (d.map fun p => if p.1 = k then (k, v) else p).find? (fun p => p.1 = k) = some (k, v) := by
  intro d
  induction d with
  | nil => simp
  | cons p d ih =>
    intro h
    by_cases hp : p.1 = k
    · simp [hp, List.find?]
    · simp only [List.any_cons, Bool.or_eq_true, decide_eq_true_eq] at h
      rcases h with h | h
      · exact absurd h hp
      · simpa [hp, List.find?] using ih h

lemma dictGet_dictSet_self (d : PyDict) (k : String) (v : Json) :
    dictGet (dictSet d k v) k = some v := by
  unfold dictSet dictGet
  split
  · rename_i h
    rw [find_in_replaced d h]
    rfl
  · rename_i h
    have hnone : d.find? (fun p => p.1 = k) = none := by
      rw [List.find?_eq_none]
      intro p hp
      simp only [decide_eq_true_eq]
      intro hk
      exact h (by
        simp only [List.any_eq_true, decide_eq_true_eq]
        exact ⟨p, hp, hk⟩)
    rw [List.find?_append, hnone]
    simp [List.find?]

lemma digitChar_isDigit (m : Nat) : (digitChar m).isDigit = true := by
  unfold digitChar
  have h : m % 10 < 10 := Nat.mod_lt _ (by norm_num)
  generalize m % 10 = r at h ⊢
  interval_cases r <;> rfl

lemma eatDigits_append (ds rest : List Char) (h : ∀ c ∈ ds, c.isDigit = true) :
    eatDigits ds.length (ds ++ rest) = some rest := by
  induction ds with
  | nil => rfl
  | cons c cs ih =>
    simp only [List.length_cons, List.cons_append, eatDigits,
      h c (List.mem_cons_self c cs), if_true]
    exact ih (fun c hc => h c (List.mem_cons_of_mem _ hc))

lemma eatDigits_pad2 (n : Nat) (rest : List Char) :
    eatDigits 2 (pad2 n ++ rest) = some rest := by
  have := eatDigits_append (pad2 n) rest (by simp [pad2, digitChar_isDigit])
  simpa [pad2] using this

lemma eatDigits_pad4 (n : Nat) (rest : List Char) :
    eatDigits 4 (pad4 n ++ rest) = some rest := by
  have := eatDigits_append (pad4 n) rest (by simp [pad4, digitChar_isDigit])
  simpa [pad4] using this

lemma eatDigits_pad6 (n : Nat) (rest : List Char) :
    eatDigits 6 (pad6 n ++ rest) = some rest := by
  have := eatDigits_append (pad6 n) rest (by simp [pad6, digitChar_isDigit])
  simpa [pad6] using this

lemma eatChar_cons (c : Char) (cs : List Char) : eatChar c (c :: cs) = some cs := by
  simp [eatChar]

lemma current_time_data (d : DateTime) :
    (current_time d).data = isoformatChars d ++ ['Z'] := rfl

lemma matchesTsShape_current_time (d : DateTime) :
    matchesTsShape (current_time d) = true := by
  unfold matchesTsShape
  rw [current_time_data]
  unfold isoformatChars
  by_cases h0 : d.microsecond = 0 <;>
    simp [h0, List.cons_append, List.append_assoc, eatDigits_pad4, eatDigits_pad2,
      eatDigits_pad6, eatChar_cons, checkTail]

lemma tsField_buildEnvelope (st : CallbackState) (d : DateTime) (e : Event) :
    tsField (buildEnvelope st d e).2 = some (.str (current_time d)) := by
  cases e <;> rfl

lemma runEnvelopes_tsFields (st : CallbackState) (evs : List (DateTime × Event)) :
    (runEnvelopes st evs).map tsField
      = evs.map (fun p => some (.str (current_time p.1))) := by
  induction evs generalizing st with
  | nil => rfl
  | cons pe rest ih =>
    obtain ⟨d, e⟩ := pe
    simp only [runEnvelopes, List.map_cons, tsField_buildEnvelope, ih]

lemma runState_lastPlay (evs : List (DateTime × Event)) :
    ∀ st : CallbackState,
      (runState st evs)._last_play = lastPlayOf st._last_play (evs.map Prod.snd) := by
  induction evs with
  | nil => intro st; rfl
  | cons pe rest ih =>
    intro st
    obtain ⟨d, e⟩ := pe
    cases e <;>
      simp [runState, buildEnvelope, lastPlayOf, ih, v2_playbook_on_play_start]

lemma runDispatch_disabled (tr : Transport) (evs : List (DateTime × Event)) :
    ∀ st : CallbackState, st.disabled = true → runDispatch st tr evs = (st, []) := by
  induction evs with
  | nil => intro st _; rfl
  | cons pe rest ih =>
    intro st h
    obtain ⟨d, e⟩ := pe
    simp only [runDispatch, h, if_true]
    exact ih st h

/-- C1: for every host-task-completion notification, the envelope's `result`
mapping equals a copy of the engine-provided result payload augmented with an
`action` key naming the task's action module and with exactly the outcome
flags of the table (`ok`/`failed`/`skipped` get `true`, unreachable gets no
explicit flag); a key is present iff it comes from the engine payload, the
flag table, or is `action` — no other keys are added. -/
theorem c1_completion_result_payload :
    ∀ name ∈ completionNames, ∀ (st : CallbackState) (now : DateTime) (result : TaskResult),
      ((completionHandler name st now result).1).field "result"
        = some (.obj (dictSet (dictUpdate result._result (specOutcomeFlags name)) "action"
            (.str result._task.action)))
      ∧ (∀ k : String,
          k ∈ dictKeys (dictSet (dictUpdate result._result (specOutcomeFlags name)) "action"
              (.str result._task.action))
            ↔ k ∈ dictKeys result._result ∨ k ∈ dictKeys (specOutcomeFlags name)
              ∨ k = "action") := by
  have hkeys : ∀ (result : TaskResult) (flags : PyDict) (k : String),
      k ∈ dictKeys (dictSet (dictUpdate result._result flags) "action"
          (.str result._task.action))
        ↔ k ∈ dictKeys result._result ∨ k ∈ dictKeys flags ∨ k = "action" := by
    intro result flags k
    rw [mem_dictKeys_dictSet, mem_dictKeys_dictUpdate]
    tauto
  intro name hname st now result
  simp only [completionNames, List.mem_cons, List.not_mem_nil, or_false] at hname
  rcases hname with rfl | rfl | rfl | rfl <;> exact ⟨rfl, hkeys result _⟩

/-- C1 witness: the ok outcome at a concrete state and result. -/
theorem c1_witness :
    ("v2_runner_on_ok" ∈ completionNames)
    ∧ (((completionHandler "v2_runner_on_ok" sampleState sampleInstant sampleResult).1).field
          "result"
        = some (.obj (dictSet (dictUpdate sampleResult._result
            (specOutcomeFlags "v2_runner_on_ok")) "action"
            (.str sampleResult._task.action))))
    ∧ (("ok" ∈ dictKeys (dictSet (dictUpdate sampleResult._result
          (specOutcomeFlags "v2_runner_on_ok")) "action"
          (.str sampleResult._task.action)))
        ↔ ("ok" ∈ dictKeys sampleResult._result
            ∨ "ok" ∈ dictKeys (specOutcomeFlags "v2_runner_on_ok") ∨ "ok" = "action")) :=
  ⟨by simp [completionNames],
   (c1_completion_result_payload "v2_runner_on_ok" (by simp [completionNames])
      sampleState sampleInstant sampleResult).1,
   (c1_completion_result_payload "v2_runner_on_ok" (by simp [completionNames])
      sampleState sampleInstant sampleResult).2 "ok"⟩

/-- C2: for every envelope the encoder can render and every exception raised
by the HTTP transport during delivery, `send_msg` catches the exception, logs
exactly one warning whose message is the fixed prefix followed by the textual
form of the error, and returns normally without a value (`.ok none`): no
exception escapes to the caller. -/
theorem c2_transport_error_swallowed (st : CallbackState) (tr : Transport) (msg : Json)
    (data e : String) (h1 : dumps msg = some data)
    (h2 : (open_url_call tr st._callback_url data).2 = .raised e) :
    send_msg st tr msg
      = ([Effect.debugLine data, Effect.debugLine (urlText st._callback_url)]
          ++ (open_url_call tr st._callback_url data).1
          ++ [Effect.warning ("Could not submit message to webhook: " ++ e)], .ok none)
    ∧ (send_msg st tr msg).1.filter Effect.isWarning
        = [Effect.warning ("Could not submit message to webhook: " ++ e)] := by
  have hmain : send_msg st tr msg
      = ([Effect.debugLine data, Effect.debugLine (urlText st._callback_url)]
          ++ (open_url_call tr st._callback_url data).1
          ++ [Effect.warning ("Could not submit message to webhook: " ++ e)], .ok none) := by
    unfold send_msg
    rw [h1]
    dsimp only
    rcases hoc : open_url_call tr st._callback_url data with ⟨atts, outc⟩
    rw [hoc] at h2
    cases outc with
    | success body => simp at h2
    | raised e' =>
        obtain rfl : e' = e := by injection h2
        simp
  refine ⟨hmain, ?_⟩
  rw [hmain]
  have hatts : ((open_url_call tr st._callback_url data).1).filter Effect.isWarning = [] := by
    cases st._callback_url <;> rfl
  simp [List.filter_append, hatts, Effect.isWarning]

/-- C2 witness: a concrete envelope with a transport that raises. -/
theorem c2_witness :
    (dumps sampleMsg = some (render sampleMsg))
    ∧ ((open_url_call raisingTransport sampleState._callback_url (render sampleMsg)).2
        = .raised "urlopen error timed out")
    ∧ send_msg sampleState raisingTransport sampleMsg
        = ([Effect.debugLine (render sampleMsg),
            Effect.debugLine (urlText sampleState._callback_url)]
            ++ (open_url_call raisingTransport sampleState._callback_url
                (render sampleMsg)).1
            ++ [Effect.warning
                ("Could not submit message to webhook: " ++ "urlopen error timed out")],
           .ok none) :=
  ⟨rfl, rfl,
   (c2_transport_error_swallowed sampleState raisingTransport sampleMsg
      (render sampleMsg) "urlopen error timed out" rfl rfl).1⟩

/-- C3: when the destination URL resolves to `None` at setup, `set_options`
sets `disabled` and emits exactly one warning; thereafter the engine's
dispatch loop (spec-modelled: it skips a disabled plugin) produces no effect
at all for any notification sequence — in particular zero outbound HTTP calls
and no further warnings. -/
theorem c3_missing_url_disables (st : CallbackState) :
    (set_options st none).1.disabled = true
    ∧ (set_options st none).2 = [Effect.warning missingUrlWarning]
    ∧ ((set_options st none).2.filter Effect.isWarning).length = 1
    ∧ ∀ (tr : Transport) (evs : List (DateTime × Event)),
        runDispatch (set_options st none).1 tr evs = ((set_options st none).1, []) := by
  refine ⟨rfl, rfl, rfl, ?_⟩
  intro tr evs
  exact runDispatch_disabled tr evs _ rfl

/-- C4: the `playbook_end` envelope's `result` mapping is built by iterating
the processed hosts in ascending sorted order of display name, mapping each to
its summarized counters; its key list is exactly the sorted host list, which
is sorted ascending. -/
theorem c4_playbook_end_sorted (now : DateTime) (stats : AggregateStats) :
    (v2_playbook_on_stats now stats).field "result"
      = some (.obj ((pySorted stats.processed).map (fun h => (h, .obj (stats.summarize h)))))
    ∧ dictKeys ((pySorted stats.processed).map (fun h => (h, .obj (stats.summarize h))))
        = pySorted stats.processed
    ∧ List.Sorted (· ≤ ·) (pySorted stats.processed) := by
  refine ⟨rfl, ?_, List.sorted_insertionSort _ _⟩
  simp only [dictKeys, List.map_map]
  rw [show (Prod.fst ∘ fun h : String => (h, Json.obj (stats.summarize h))) = id from rfl]
  exact List.map_id _

/-- C5: the run-scoped current-play field is mutated only by the play-start
handler, which sets it to the started play's uuid; every other handler leaves
the state unchanged and embeds the current value as the envelope's `play`
field; over any event sequence the cached value is the uuid of the most
recently started play. -/
theorem c5_last_play_frame :
    (∀ (st : CallbackState) (now : DateTime) (play : Play),
        ((v2_playbook_on_play_start st now play).1)._last_play = some play._uuid)
    ∧ (∀ (st : CallbackState) (now : DateTime) (e : Event), e.isPlayStart = false →
        (buildEnvelope st now e).1 = st)
    ∧ (∀ (st : CallbackState) (now : DateTime) (e : Event), e.isTaskRelated = true →
        ((buildEnvelope st now e).2).field "play" = some (optJson st._last_play))
    ∧ (∀ (st : CallbackState) (evs : List (DateTime × Event)),
        (runState st evs)._last_play = lastPlayOf st._last_play (evs.map Prod.snd)) := by
  refine ⟨fun st now play => rfl, ?_, ?_, fun st evs => runState_lastPlay evs st⟩
  · intro st now e h
    cases e <;> first | rfl | simp [Event.isPlayStart] at h
  · intro st now e h
    cases e <;> first | rfl | simp [Event.isTaskRelated] at h

/-- C5 witness: a task-start event at a concrete state neither mutates the
state nor fails to embed the cached play id. -/
theorem c5_witness :
    ((Event.taskStart sampleTask false).isPlayStart = false
      ∧ (buildEnvelope sampleState sampleInstant (.taskStart sampleTask false)).1 = sampleState)
    ∧ ((Event.taskStart sampleTask false).isTaskRelated = true
      ∧ ((buildEnvelope sampleState sampleInstant (.taskStart sampleTask false)).2).field "play"
          = some (optJson sampleState._last_play)) :=
  ⟨⟨rfl, c5_last_play_frame.2.1 sampleState sampleInstant (.taskStart sampleTask false) rfl⟩,
   ⟨rfl, c5_last_play_frame.2.2.1 sampleState sampleInstant (.taskStart sampleTask false) rfl⟩⟩

/-- C6: every envelope timestamp is the rendering of the clock instant at
envelope-construction time, matches `YYYY-MM-DDTHH:MM:SS(.ffffff)?Z`, and for
a clock that is non-decreasing across sequential events the stamped instants
are non-decreasing in construction order. -/
theorem c6_timestamps :
    (∀ d : DateTime, matchesTsShape (current_time d) = true)
    ∧ (∀ (st : CallbackState) (evs : List (DateTime × Event)),
        (runEnvelopes st evs).map tsField
          = evs.map (fun p => some (.str (current_time p.1))))
    ∧ (∀ (st : CallbackState) (evs : List (DateTime × Event)),
        (evs.map Prod.fst).Pairwise dtLe →
          ((runEnvelopes st evs).map tsField).Pairwise (fun a b =>
            ∃ d1 d2 : DateTime, a = some (.str (current_time d1))
              ∧ b = some (.str (current_time d2)) ∧ dtLe d1 d2)) := by
  refine ⟨matchesTsShape_current_time, runEnvelopes_tsFields, ?_⟩
  intro st evs h
  rw [runEnvelopes_tsFields]
  rw [List.pairwise_map] at h ⊢
  exact h.imp (fun hab => ⟨_, _, rfl, rfl, hab⟩)

/-- C6 witness: a concrete two-event run with a non-decreasing clock. -/
theorem c6_witness :
    ((sampleRun.map Prod.fst).Pairwise dtLe)
    ∧ ((runEnvelopes initState sampleRun).map tsField).Pairwise (fun a b =>
        ∃ d1 d2 : DateTime, a = some (.str (current_time d1))
          ∧ b = some (.str (current_time d2)) ∧ dtLe d1 d2) :=
  ⟨by decide, c6_timestamps.2.2 initState sampleRun (by decide)⟩

/-- C7: when JSON serialization of the envelope raises, the exception
propagates uncaught out of `send_msg` — before any debug line, any HTTP
attempt, or any warning: only errors raised by the transport call are caught,
and serialization happens before the guarded region. -/
theorem c7_serialization_propagates (st : CallbackState) (tr : Transport) (msg : Json)
    (h : dumps msg = none) :
    send_msg st tr msg = ([], .error "TypeError: not JSON serializable") := by
  unfold send_msg
  rw [h]

/-- C7 witness: a concrete envelope embedding an unrenderable engine object. -/
theorem c7_witness :
    (dumps sampleBadMsg = none)
    ∧ send_msg sampleState raisingTransport sampleBadMsg
        = ([], .error "TypeError: not JSON serializable") :=
  ⟨rfl, c7_serialization_propagates sampleState raisingTransport sampleBadMsg rfl⟩

/-- C8 counterexample: at the clock instant the spec's example names
(2024-01-01 00:00:00.000000 UTC), the `play_start` envelope's `start` field is
`"2024-01-01T00:00:00Z"` — `isoformat` omits a zero microsecond field — not
the `"2024-01-01T00:00:00.000000Z"` the claim's example shows. -/
theorem c8_counterexample :
    ((v2_playbook_on_play_start initState exampleInstant examplePlay).2).field "start"
      = some (.str "2024-01-01T00:00:00Z")
    ∧ ("2024-01-01T00:00:00Z" : String) ≠ "2024-01-01T00:00:00.000000Z" :=
  ⟨rfl, by decide⟩

/-- C8 (amended): every play-start envelope has exactly the keys `type`, `id`,
`start`, `name`, with `type` = "play_start", `id` = the play uuid (also cached
as the current play), `name` = the play's display name; play "deploy" with
uuid `abc-123` at 2024-01-01 00:00:00 UTC yields the example envelope with
`start` = `"2024-01-01T00:00:00Z"`. -/
theorem c8_play_start_envelope :
    (∀ (st : CallbackState) (now : DateTime) (play : Play),
        v2_playbook_on_play_start st now play
          = ({ st with _last_play := some play._uuid },
             .obj [("type", .str "play_start"), ("id", .str play._uuid),
                   ("start", .str (current_time now)), ("name", .str play.name)]))
    ∧ (v2_playbook_on_play_start initState exampleInstant examplePlay).2
        = .obj [("type", .str "play_start"), ("id", .str "abc-123"),
                ("start", .str "2024-01-01T00:00:00Z"), ("name", .str "deploy")] :=
  ⟨fun _ _ _ => rfl, rfl⟩

/-- C9: the four completion handlers synthesized by attribute interception are
each extensionally equal to the spec's explicit thin function delegating to
the shared completion-builder with that outcome's flag mapping, so the
interception-based and explicit-table embeddings produce identical envelopes
on every input. -/
theorem c9_dispatch_refinement :
    getattribute "v2_runner_on_ok" = some spec_v2_runner_on_ok
    ∧ getattribute "v2_runner_on_failed" = some spec_v2_runner_on_failed
    ∧ getattribute "v2_runner_on_skipped" = some spec_v2_runner_on_skipped
    ∧ getattribute "v2_runner_on_unreachable" = some spec_v2_runner_on_unreachable :=
  ⟨rfl, rfl, rfl, rfl⟩

/-- C10: the completion-envelope builder works on a top-level copy of the
engine's result payload: after the handler the engine's dict is exactly the
input dict, while the `action` key (and the merged flags) appear only in the
copy placed in the envelope. -/
theorem c10_engine_payload_unchanged (st : CallbackState) (now : DateTime)
    (on_info : PyDict) (result : TaskResult) :
    (_record_task_result st now on_info result).2 = result._result
    ∧ ((_record_task_result st now on_info result).1).field "result"
        = some (.obj (dictSet (dictUpdate result._result on_info) "action"
            (.str result._task.action)))
    ∧ dictGet (dictSet (dictUpdate result._result on_info) "action"
        (.str result._task.action)) "action" = some (.str result._task.action) :=
  ⟨rfl, rfl, dictGet_dictSet_self _ _ _⟩

end JsonNotifier
